import Mathlib

/-!
Verification of the nexemail core library (check-if-email-exists fork):
a shallow embedding of `core/src/lib.rs`, `core/src/smtp/error.rs`,
`core/src/smtp/proxy_rotator.rs` and `core/src/util/public_ip.rs`,
together with theorems settling the frozen claims about the
natural-language specification.
-/

namespace Nexemail

/-! ## String helpers (prefix and substring tests over `String.data`) -/

/-- Boolean test that `p` is an initial segment of `s`. -/
def strBegins (p s : String) : Bool :=
  p.data.isPrefixOf s.data

/-- Boolean test that `needle` occurs as a contiguous run inside `hay`. -/
def listContainsSub (needle : List Char) : List Char → Bool
  | [] => needle.isEmpty
  | c :: rest => needle.isPrefixOf (c :: rest) || listContainsSub needle rest

/-- Boolean substring test on strings. -/
def strContainsSub (needle hay : String) : Bool :=
  listContainsSub needle.data hay.data

/-- Whitespace trim at both ends (the behaviour of Rust `str::trim`),
written over the character list so that it evaluates by reduction. -/
def strTrim (s : String) : String :=
  ⟨((s.data.dropWhile Char.isWhitespace).reverse.dropWhile Char.isWhitespace).reverse⟩

/-! ## Data model from `core/src/lib.rs` and the spec (section 3) -/

/-- Graded reachability verdict. -/
inductive Reachable where
  | Safe
  | Invalid
  | Risky
  | Unknown
deriving DecidableEq

/-- Miscellaneous metadata. The `misc` module is not under `src/`; the field
list follows spec section 3. Only the two booleans are read by verdict fusion. -/
structure MiscDetails where
  is_disposable : Bool
  is_role_account : Bool
  gravatar_url : Option String
  haveibeenpwned : Option Bool
deriving DecidableEq

/-- SMTP probe signals (spec section 3; all booleans default to false). -/
structure SmtpDetails where
  can_connect_smtp : Bool
  has_full_inbox : Bool
  is_deliverable : Bool
  is_disabled : Bool
  is_catch_all : Bool
deriving DecidableEq

/-! ## Error model from `core/src/smtp/error.rs`

External collaborator payloads (provider errors, `std::io::Error`,
`anyhow::Error`, `Duration`) are carried as their rendered display strings;
`std::io::ErrorKind` and the `fast_socks5` error enums are modelled
structurally because `format_socks5_error_detailed` matches on them. -/

/-- The kinds of `std::io::ErrorKind` distinguished by
`format_socks5_error_detailed`; every other kind collapses into `Other`,
which carries its rendered display text. -/
inductive IoErrorKind where
  | ConnectionRefused
  | ConnectionReset
  | TimedOut
  | ConnectionAborted
  | NotConnected
  | AddrNotAvailable
  | AddrInUse
  | PermissionDenied
  | UnexpectedEof
  | Other (rendered : String)
deriving DecidableEq

/-- Display rendering of `std::io::ErrorKind` (external standard library). -/
def IoErrorKind.display : IoErrorKind → String
  | .ConnectionRefused => "connection refused"
  | .ConnectionReset => "connection reset"
  | .TimedOut => "timed out"
  | .ConnectionAborted => "connection aborted"
  | .NotConnected => "not connected"
  | .AddrNotAvailable => "address not available"
  | .AddrInUse => "address in use"
  | .PermissionDenied => "permission denied"
  | .UnexpectedEof => "unexpected end of file"
  | .Other rendered => rendered

/-- A `std::io::Error`: its kind plus its rendered display text. -/
structure IoErr where
  kind : IoErrorKind
  rendered : String
deriving DecidableEq

/-- The `fast_socks5::ReplyError` enum (external crate), exactly the variants
matched by `format_socks5_reply_error`. -/
inductive ReplyError where
  | Succeeded
  | GeneralFailure
  | ConnectionNotAllowed
  | NetworkUnreachable
  | HostUnreachable
  | ConnectionRefused
  | TtlExpired
  | CommandNotSupported
  | AddressTypeNotSupported
  | ConnectionTimeout
deriving DecidableEq

/-- The `fast_socks5::SocksError` enum (external crate), exactly the variants
matched by `format_socks5_error_detailed` (the source match has no wildcard
arm, so this list is exhaustive). String payloads carry display renderings;
`AuthMethodUnacceptable` carries the byte list rendered by debug formatting. -/
inductive SocksError where
  | Io (e : IoErr)
  | ReplyError (e : ReplyError)
  | AuthenticationFailed (msg : String)
  | AuthenticationRejected (msg : String)
  | AuthMethodUnacceptable (methods : List Nat)
  | UnsupportedSocksVersion (version : Nat)
  | InvalidHeader (expected : Nat) (found : Nat)
  | ExceededMaxDomainLen (len : Nat)
  | ArgumentInputError (msg : String)
  | Redaction (msg : String)
  | Other (msg : String)
deriving DecidableEq

/-- A `std::time::Duration` carried only for its debug rendering. -/
structure RDuration where
  debugRepr : String
deriving DecidableEq

/-- The `SmtpError` enum of `core/src/smtp/error.rs`. Provider error payloads
are carried as their display strings. -/
inductive SmtpError where
  | YahooError (e : String)
  | GmailError (e : String)
  | HeadlessError (e : String)
  | Microsoft365Error (e : String)
  | AsyncSmtpError (e : String)
  | IOError (e : IoErr)
  | Timeout (duration : RDuration)
  | Socks5 (e : SocksError)
  | AnyhowError (e : String)
deriving DecidableEq

/-- The `SmtpErrorDesc` enum of `core/src/smtp/error.rs`. -/
inductive SmtpErrorDesc where
  | IpBlacklisted
  | NeedsRDNS
deriving DecidableEq

/-- Debug rendering of a byte vector, as Rust debug formatting prints it. -/
def debugListNat (l : List Nat) : String :=
  "[" ++ String.intercalate ", " (l.map toString) ++ "]"

/-- Embedding of `format_socks5_reply_error` (error.rs lines 261 to 330).
Rust string continuations (backslash at end of line) are joined into the
single string they denote. -/
def format_socks5_reply_error (reply_error : ReplyError) : String :=
  match reply_error with
  | .Succeeded =>
      "SOCKS5 connection succeeded (this should not appear as an error)."
  | .GeneralFailure =>
      "SOCKS5 General Failure (reply code 0x01): The proxy server encountered an internal error " ++
      "and could not complete the request. Possible causes: " ++
      "(1) The proxy cannot reach the target SMTP server - check if the target is accessible from the proxy\x27s network. " ++
      "(2) The proxy has internal configuration issues or is overloaded. " ++
      "(3) Firewall or security policy on the proxy is blocking this connection. " ++
      "(4) The proxy\x27s outbound network is restricted. " ++
      "Try using a different proxy or verify the target server is reachable from the proxy\x27s location."
  | .ConnectionNotAllowed =>
      "SOCKS5 Connection Not Allowed (reply code 0x02): The proxy\x27s ruleset explicitly denies this connection. " ++
      "The proxy administrator has configured policies that block connections to this target. " ++
      "This may be due to: (1) IP-based access control lists, (2) Domain blocking rules, " ++
      "(3) Port restrictions (SMTP port 25 is often blocked), (4) Rate limiting or abuse prevention. " ++
      "Contact the proxy provider or use a different proxy."
  | .NetworkUnreachable =>
      "SOCKS5 Network Unreachable (reply code 0x03): The proxy cannot route traffic to the target network. " ++
      "The target SMTP server\x27s network is not accessible from the proxy. " ++
      "Possible causes: (1) No route exists to the target network, (2) Network partition or outage, " ++
      "(3) The proxy\x27s network configuration doesn\x27t include this route. " ++
      "Try a proxy in a different geographic location."
  | .HostUnreachable =>
      "SOCKS5 Host Unreachable (reply code 0x04): The proxy could not reach the target SMTP server host. " ++
      "The specific host is not responding or is unreachable. " ++
      "Possible causes: (1) The SMTP server is down or offline, (2) DNS resolution failed on the proxy side, " ++
      "(3) The host is blocking connections from the proxy\x27s IP, (4) Firewall blocking at the destination. " ++
      "Verify the target email domain\x27s MX servers are operational."
  | .ConnectionRefused =>
      "SOCKS5 Connection Refused (reply code 0x05): The target SMTP server actively refused the connection. " ++
      "The SMTP server is reachable but declined to accept the connection. " ++
      "Possible causes: (1) The SMTP server is not accepting connections on this port, " ++
      "(2) The proxy\x27s IP address is blacklisted by the SMTP server, " ++
      "(3) Rate limiting or connection limits on the target server, " ++
      "(4) The SMTP service is temporarily unavailable. " ++
      "Try a different proxy with a clean IP reputation."
  | .TtlExpired =>
      "SOCKS5 TTL Expired (reply code 0x06): The connection attempt timed out due to TTL expiration. " ++
      "The network path to the target is too long or congested. " ++
      "This typically indicates severe network latency or routing problems between the proxy and target."
  | .CommandNotSupported =>
      "SOCKS5 Command Not Supported (reply code 0x07): The proxy does not support the CONNECT command. " ++
      "This is unusual for a SOCKS5 proxy as CONNECT is a basic command. " ++
      "The proxy may have limited functionality or be misconfigured."
  | .AddressTypeNotSupported =>
      "SOCKS5 Address Type Not Supported (reply code 0x08): The proxy does not support the address format used. " ++
      "The target address type (IPv4/IPv6/domain) is not supported by this proxy. " ++
      "Try using a different address format or a proxy with broader address support."
  | .ConnectionTimeout =>
      "SOCKS5 Connection Timeout: The connection to the proxy or target server timed out. " ++
      "The proxy server or target SMTP server did not respond in time. " ++
      "Possible causes: (1) Network latency is too high, (2) The proxy or target is overloaded, " ++
      "(3) Connection was blocked by a firewall without sending a rejection. " ++
      "Try increasing timeout values or using a proxy with lower latency."

/-- Embedding of `format_socks5_error_detailed` (error.rs lines 147 to 258). -/
def format_socks5_error_detailed (error : SocksError) : String :=
  match error with
  | .Io io_err =>
      let kind := io_err.kind
      let details :=
        match kind with
        | .ConnectionRefused =>
            "Connection refused - the SOCKS5 proxy server is not accepting connections. " ++
            "Verify the proxy is running and the port is correct."
        | .ConnectionReset =>
            "Connection reset by proxy - the SOCKS5 server terminated the connection unexpectedly. " ++
            "The proxy may be overloaded or blocking this connection."
        | .TimedOut =>
            "Connection timed out - unable to reach the SOCKS5 proxy server within the timeout period. " ++
            "Check network connectivity and firewall rules."
        | .ConnectionAborted =>
            "Connection aborted - the connection to the SOCKS5 proxy was terminated. " ++
            "This may indicate network instability or proxy issues."
        | .NotConnected =>
            "Not connected - failed to establish connection to the SOCKS5 proxy. " ++
            "Verify proxy host and port are correct."
        | .AddrNotAvailable =>
            "Address not available - the SOCKS5 proxy address could not be resolved or is invalid."
        | .AddrInUse =>
            "Address in use - local address conflict when connecting to SOCKS5 proxy."
        | .PermissionDenied =>
            "Permission denied - insufficient permissions to connect to the SOCKS5 proxy. " ++
            "This may be a firewall or system policy issue."
        | .UnexpectedEof =>
            "Unexpected end of stream - the SOCKS5 proxy closed the connection prematurely. " ++
            "The proxy may have crashed or rejected the request."
        | _ => "I/O error occurred while communicating with the SOCKS5 proxy."
      "SOCKS5 I/O error (" ++ kind.display ++ "): " ++ details ++ " Raw error: " ++ io_err.rendered
  | .ReplyError reply_error => format_socks5_reply_error reply_error
  | .AuthenticationFailed msg =>
      "SOCKS5 authentication failed: " ++ msg ++ ". " ++
      "Verify your proxy username and password are correct."
  | .AuthenticationRejected msg =>
      "SOCKS5 authentication rejected by proxy: " ++ msg ++ ". " ++
      "The proxy server does not accept the provided credentials or authentication method."
  | .AuthMethodUnacceptable methods =>
      "SOCKS5 authentication method not accepted. Requested methods: " ++ debugListNat methods ++ ". " ++
      "The proxy requires a different authentication method than what was offered."
  | .UnsupportedSocksVersion version =>
      "Unsupported SOCKS version: " ++ toString version ++ ". Expected SOCKS5 (version 5). " ++
      "The server may not support SOCKS5 or is running a different protocol."
  | .InvalidHeader expected found =>
      "Invalid SOCKS5 protocol header. Expected: " ++ toString expected ++ ", Found: " ++ toString found ++ ". " ++
      "The proxy may not be a valid SOCKS5 server or there\x27s a protocol mismatch."
  | .ExceededMaxDomainLen len =>
      "Domain name too long for SOCKS5 protocol: " ++ toString len ++ " bytes (max 255). " ++
      "The target domain name exceeds SOCKS5 protocol limits."
  | .ArgumentInputError msg =>
      "Invalid SOCKS5 connection argument: " ++ msg ++ ". " ++
      "Check the proxy configuration parameters."
  | .Redaction msg =>
      "SOCKS5 error (redacted for security): " ++ msg
  | .Other msg =>
      "SOCKS5 unexpected error: " ++ msg ++ ". " ++
      "This is an unclassified error from the proxy connection."

/-- Modelled from the spec: `smtp/parser.rs` is not under `src/`. Spec
section 4.4 says an `AsyncSmtpError` whose message matches the listed
blacklist phrases is classified as IP-blacklisted. -/
def is_err_ip_blacklisted (e : SmtpError) : Bool :=
  match e with
  | .AsyncSmtpError m =>
      ["blocked using", "spamhaus", "blacklist", "blocklist", "spfbl"].any
        (fun p => strContainsSub p m)
  | _ => false

/-- Modelled from the spec: `smtp/parser.rs` is not under `src/`. Spec
section 4.4 says an `AsyncSmtpError` whose message matches the listed
reverse-DNS phrases is classified as needing reverse DNS. -/
def is_err_needs_rdns (e : SmtpError) : Bool :=
  match e with
  | .AsyncSmtpError m =>
      ["reverse dns", "rdns", "ptr record"].any (fun p => strContainsSub p m)
  | _ => false

/-- Embedding of `SmtpError::get_description` (error.rs lines 120 to 133). -/
def SmtpError.get_description (e : SmtpError) : Option SmtpErrorDesc :=
  match e with
  | .AsyncSmtpError _ =>
      if is_err_ip_blacklisted e then some .IpBlacklisted
      else if is_err_needs_rdns e then some .NeedsRDNS
      else none
  | _ => none

/-- Embedding of `SmtpError::get_detailed_socks5_description`
(error.rs lines 137 to 142). -/
def SmtpError.get_detailed_socks5_description (e : SmtpError) : Option String :=
  match e with
  | .Socks5 socks_error => some (format_socks5_error_detailed socks_error)
  | _ => none

/-- Display rendering of the external `fast_socks5::SocksError` (used only by
the dead fallback branch of `format_smtp_error_reason`); modelled as a plain
rendering of the carried payloads. -/
def socksErrorDisplay : SocksError → String
  | .Io e => e.rendered
  | .ReplyError r => format_socks5_reply_error r
  | .AuthenticationFailed msg => msg
  | .AuthenticationRejected msg => msg
  | .AuthMethodUnacceptable methods => debugListNat methods
  | .UnsupportedSocksVersion version => toString version
  | .InvalidHeader expected found => toString expected ++ " " ++ toString found
  | .ExceededMaxDomainLen len => toString len
  | .ArgumentInputError msg => msg
  | .Redaction msg => msg
  | .Other msg => msg

/-- Display of `SmtpError`, from the thiserror attributes in error.rs. -/
def smtpErrorDisplay : SmtpError → String
  | .YahooError e => "Yahoo error: " ++ e
  | .GmailError e => "Gmail error: " ++ e
  | .HeadlessError e => "Headless verification error: " ++ e
  | .Microsoft365Error e => "Microsoft 365 API error: " ++ e
  | .AsyncSmtpError e => "SMTP error: " ++ e
  | .IOError e => "I/O error: " ++ e.rendered
  | .Timeout d => "Timeout error: " ++ d.debugRepr
  | .Socks5 e => "SOCKS5 error: " ++ socksErrorDisplay e
  | .AnyhowError e => "Anyhow error: " ++ e

/-- Embedding of `format_smtp_error_reason` (lib.rs lines 172 to 196). -/
def format_smtp_error_reason (error : SmtpError) : String :=
  match error with
  | .YahooError e => "Unknown: Yahoo verification failed - " ++ e
  | .GmailError e => "Unknown: Gmail verification failed - " ++ e
  | .HeadlessError e => "Unknown: Headless browser verification failed - " ++ e
  | .Microsoft365Error e => "Unknown: Microsoft 365 verification failed - " ++ e
  | .AsyncSmtpError e => "Unknown: SMTP error - " ++ e
  | .IOError e => "Unknown: I/O error during SMTP connection - " ++ e.rendered
  | .Timeout duration => "Unknown: SMTP connection timed out after " ++ duration.debugRepr
  | .Socks5 _ =>
      match error.get_detailed_socks5_description with
      | some detailed => "Unknown: " ++ detailed
      | none => "Unknown: SOCKS5 proxy connection failed - " ++ smtpErrorDisplay error
  | .AnyhowError e => "Unknown: Unexpected error - " ++ e

/-- Embedding of `calculate_reachable_with_reason` (lib.rs lines 122 to 170).
The vector pushes are encoded as list appends in source order. -/
def calculate_reachable_with_reason (misc : MiscDetails)
    (smtp : Except SmtpError SmtpDetails) : Reachable × String :=
  match smtp with
  | .ok smtp_details =>
      let risky_reasons : List String :=
        (if misc.is_disposable then ["disposable email address"] else []) ++
        (if misc.is_role_account then ["role-based account (e.g., admin@, support@)"] else []) ++
        (if smtp_details.is_catch_all then ["catch-all address (accepts all emails)"] else []) ++
        (if smtp_details.has_full_inbox then ["inbox is full"] else [])
      if !risky_reasons.isEmpty then
        (.Risky, "Risky: " ++ String.intercalate ", " risky_reasons)
      else
        let invalid_reasons : List String :=
          (if !smtp_details.can_connect_smtp then ["cannot connect to SMTP server"] else []) ++
          (if smtp_details.is_disabled then ["email account is disabled"] else []) ++
          (if !smtp_details.is_deliverable then ["email is not deliverable"] else [])
        if !invalid_reasons.isEmpty then
          (.Invalid, "Invalid: " ++ String.intercalate ", " invalid_reasons)
        else
          (.Safe, "Email verification passed all checks")
  | .error smtp_error => (.Unknown, format_smtp_error_reason smtp_error)

/-- Verdict fusion exactly as the spec words it (section 4.6), for refinement
comparison with the source embedding: collect the risky labels in the stated
order, else the invalid labels in the stated order, else Safe. -/
def verdictFusionSpec (misc : MiscDetails) (d : SmtpDetails) : Reachable × String :=
  let risky :=
    ([("disposable email address", misc.is_disposable),
      ("role-based account (e.g., admin@, support@)", misc.is_role_account),
      ("catch-all address (accepts all emails)", d.is_catch_all),
      ("inbox is full", d.has_full_inbox)].filter (fun p => p.2)).map (fun p => p.1)
  if risky ≠ [] then (.Risky, "Risky: " ++ String.intercalate ", " risky)
  else
    let invalid :=
      ([("cannot connect to SMTP server", !d.can_connect_smtp),
        ("email account is disabled", d.is_disabled),
        ("email is not deliverable", !d.is_deliverable)].filter (fun p => p.2)).map (fun p => p.1)
    if invalid ≠ [] then (.Invalid, "Invalid: " ++ String.intercalate ", " invalid)
    else (.Safe, "Email verification passed all checks")

/-! ## Proxy rotator from `core/src/smtp/proxy_rotator.rs` -/

/-- The `ProxyRotationStrategy` enum (declared in `smtp/verif_method.rs`,
referenced by the rotator; spec section 4.7 lists exactly these two). -/
inductive ProxyRotationStrategy where
  | RoundRobin
  | Random
deriving DecidableEq

/-- One usize increment wraps at this modulus (`AtomicUsize::fetch_add`). -/
def USIZE_MOD : Nat := 2 ^ 64

/-- State of a `ProxyRotator`: the proxy id list, the atomic counter value
(a machine usize, kept below `USIZE_MOD`), and the strategy. -/
structure ProxyRotator where
  proxy_ids : List String
  counter : Nat
  strategy : ProxyRotationStrategy
deriving DecidableEq

/-- Embedding of `ProxyRotator::get_next_proxy_id` (proxy_rotator.rs lines 53
to 67) as a state transformer. The `rand` argument stands for the draw of the
thread-local RNG consumed by the Random strategy; RoundRobin ignores it.
`fetch_add` returns the old counter and stores its wrapped successor. -/
def get_next_proxy_id (s : ProxyRotator) (rand : Nat) :
    Option String × ProxyRotator :=
  if s.proxy_ids.isEmpty then (none, s)
  else
    match s.strategy with
    | .RoundRobin =>
        let index := s.counter % s.proxy_ids.length
        (s.proxy_ids.get? index, { s with counter := (s.counter + 1) % USIZE_MOD })
    | .Random => (s.proxy_ids.get? (rand % s.proxy_ids.length), s)

/-- Run `n` sequential calls of `get_next_proxy_id` (with a fixed RNG draw,
irrelevant for RoundRobin), collecting the returned ids. -/
def runRotator : ProxyRotator → Nat → List (Option String) × ProxyRotator
  | s, 0 => ([], s)
  | s, n + 1 =>
      let step := get_next_proxy_id s 0
      let rest := runRotator step.2 n
      (step.1 :: rest.1, rest.2)

/-! ## MX selection from `core/src/lib.rs` lines 303 to 311 -/

/-- One MX record: preference value and exchange host. -/
structure MxRecord where
  preference : Nat
  exchange : String
deriving DecidableEq

/-- The MX lookup outcome inside `MxDetails`: a DNS error rendering or the
ordered record list. -/
structure MxDetails where
  lookup : Except String (List MxRecord)

/-- Embedding of Rust `Iterator::min_by_key` on `preference` as used by
`check_email`: the element with the minimum key, the first one when several
are equally minimal (the documented contract of `min_by_key`). -/
def min_by_key_preference : List MxRecord → Option MxRecord
  | [] => none
  | x :: xs =>
      match min_by_key_preference xs with
      | none => some x
      | some m => if m.preference < x.preference then some m else some x

/-- Spec-side helper: the minimum preference value of a record list. -/
def specMinPreference : List MxRecord → Option Nat
  | [] => none
  | r :: rs =>
      match specMinPreference rs with
      | none => some r.preference
      | some m => some (min r.preference m)

/-- MX selection as the claim words it: the record whose preference is
minimal, ties broken by first-encountered order. -/
def specSelectFirstMin (l : List MxRecord) : Option MxRecord :=
  match specMinPreference l with
  | none => none
  | some m => l.find? (fun r => r.preference == m)

/-- Lexicographic order on character lists (the standard string order),
written recursively so that it evaluates by reduction. -/
def charListLt : List Char → List Char → Bool
  | [], [] => false
  | [], _ :: _ => true
  | _ :: _, [] => false
  | a :: as, b :: bs =>
      if a < b then true else if b < a then false else charListLt as bs

/-- String order test used by the spec-side lexicographic MX selection. -/
def strLtB (a b : String) : Bool := charListLt a.data b.data

/-- MX selection as the spec ordering policy words it: records compared by
preference first and by string order of the exchange host second, first such
minimum returned. -/
def specSelectLexStringTieBreak : List MxRecord → Option MxRecord
  | [] => none
  | x :: xs =>
      match specSelectLexStringTieBreak xs with
      | none => some x
      | some m =>
          if m.preference < x.preference ∨
              (m.preference = x.preference ∧ strLtB m.exchange x.exchange = true) then
            some m
          else some x

/-! ## The pipeline orchestrator `check_email` (lib.rs lines 208 to 355)

The collaborators invoked by `check_email` that are not under `src/`
(`check_syntax`, `check_mx`, `check_misc`, `check_smtp`,
`get_similar_mail_provider`, the clock) are supplied as oracle inputs in an
environment record; `check_email` itself is embedded as a pure function of
that environment. -/

/-- Syntax analysis outcome; field list follows spec section 3 (the source
field named like the structure with an is-valid marker is rendered here as
`is_syntax_valid`). The `domain` field is a plain string because
`check_email` reads it with `as_ref` and no unwrap. -/
structure SyntaxDetails where
  input : String
  is_syntax_valid : Bool
  username : Option String
  domain : String
  address : Option String
  suggestion : Option String
deriving DecidableEq

/-- Debug metadata of an output (spec section 3); the SMTP transport debug
record is carried as a rendered string. -/
structure DebugDetails where
  start_time : Nat
  end_time : Nat
  duration : Nat
  smtp : String
  backend_name : String
deriving DecidableEq

/-- The `CheckEmailOutput` record (spec section 3). -/
structure CheckEmailOutput where
  input : String
  is_reachable : Reachable
  reason : String
  syntaxDetails : SyntaxDetails
  mx : Except String MxDetails
  misc : Except String MiscDetails
  smtp : Except SmtpError SmtpDetails
  debug : DebugDetails

/-- Modelled from the spec: the `Default` implementation of
`CheckEmailOutput` lives in `util/input_output.rs`, which is not under
`src/`. Fixed zero-like values are used; the claims only compare fields
against this record, never inspect the values themselves (spec section 3
fixes the SmtpDetails booleans to false). -/
def defaultOutput : CheckEmailOutput where
  input := ""
  is_reachable := .Unknown
  reason := ""
  syntaxDetails := ⟨"", false, none, "", none, none⟩
  mx := .error ""
  misc := .error ""
  smtp := .ok ⟨false, false, false, false, false⟩
  debug := ⟨0, 0, 0, "", ""⟩

/-- Oracle environment for one `check_email` call: the input email, the
results produced by the collaborator stages, and the clock readings. The
SMTP probe oracle is keyed by the exchange host chosen from the MX records
and returns the probe result together with its debug rendering. -/
structure CheckEmailEnv where
  to_email : String
  syntaxRes : SyntaxDetails
  gsmp : SyntaxDetails → SyntaxDetails
  mxRes : Except String MxDetails
  miscRes : MiscDetails
  smtpOf : String → Except SmtpError SmtpDetails × String
  start_time : Nat
  end_time : Nat
  backend_name : String

/-- Embedding of `check_email` (lib.rs lines 208 to 355). Returns `none`
exactly where the source panics (the `expect` calls on a successful but
empty MX record list or a missing parsed address). -/
def check_email (env : CheckEmailEnv) : Option CheckEmailOutput :=
  let my_syn := env.syntaxRes
  if !my_syn.is_syntax_valid then
    some { defaultOutput with
      input := env.to_email
      is_reachable := .Invalid
      reason := "Invalid: email syntax is invalid"
      syntaxDetails := my_syn }
  else
    match env.mxRes with
    | .error mx_error =>
        let my_syn := env.gsmp my_syn
        some { defaultOutput with
          input := env.to_email
          is_reachable := .Unknown
          reason := "Unknown: MX lookup failed - " ++ mx_error
          mx := .error mx_error
          syntaxDetails := my_syn }
    | .ok my_mx =>
        match my_mx.lookup with
        | .error _ =>
            let my_syn := env.gsmp my_syn
            some { defaultOutput with
              input := env.to_email
              is_reachable := .Invalid
              reason := "Invalid: no MX records found for domain"
              mx := .ok my_mx
              syntaxDetails := my_syn }
        | .ok records =>
            let my_misc := env.miscRes
            match min_by_key_preference records with
            | none => none
            | some host =>
                match my_syn.address with
                | none => none
                | some _ =>
                    let probe := env.smtpOf host.exchange
                    let my_smtp := probe.1
                    let my_syn :=
                      match my_smtp with
                      | .error _ => env.gsmp my_syn
                      | .ok _ => my_syn
                    let verdict := calculate_reachable_with_reason my_misc my_smtp
                    some {
                      input := env.to_email
                      is_reachable := verdict.1
                      reason := verdict.2
                      misc := .ok my_misc
                      mx := .ok my_mx
                      smtp := my_smtp
                      syntaxDetails := my_syn
                      debug := {
                        start_time := env.start_time
                        end_time := env.end_time
                        duration := env.end_time - env.start_time
                        smtp := probe.2
                        backend_name := env.backend_name } }

/-- The per-verdict reason shape that the code actually guarantees: Invalid,
Risky and Unknown reasons carry their tag as beginning; a Safe reason is the
fixed sentence "Email verification passed all checks". -/
def reasonConsistent : Reachable → String → Prop
  | .Invalid, r => strBegins "Invalid:" r = true
  | .Risky, r => strBegins "Risky:" r = true
  | .Unknown, r => strBegins "Unknown:" r = true
  | .Safe, r => r = "Email verification passed all checks"

/-- Lift of `reasonConsistent` over the optional output (`none` is the
panic case, which produces no output). -/
def outputReasonOk : Option CheckEmailOutput → Prop
  | none => True
  | some o => reasonConsistent o.is_reachable o.reason

/-! ## Public IP discovery from `core/src/util/public_ip.rs` -/

/-- The fixed service list `PUBLIC_IP_SERVICES` (public_ip.rs lines 22
to 27). -/
def PUBLIC_IP_SERVICES : List String :=
  ["https://api.ipify.org", "https://ifconfig.me/ip",
   "https://icanhazip.com", "https://ipecho.net/plain"]

/-- The cache duration in seconds (public_ip.rs line 21). -/
def PUBLIC_IP_CACHE_DURATION : Nat := 300

/-- The cached public IP singleton state. -/
structure CachedPublicIp where
  ip : Option String
  last_fetched : Option Nat
deriving DecidableEq

/-- One HTTP response as seen by `fetch_public_ip`: success status flag and
the optional body text (the body read itself can fail). -/
structure IpHttpResponse where
  status_ok : Bool
  text : Option String
deriving DecidableEq

/-- Oracle environment for public IP discovery: the HTTP world (`none` is a
transport error), the IP-address parser of the standard library backing
`is_valid_ip`, and the hostname lookup backing `get_local_hostname`. -/
structure PublicIpEnv where
  response : String → Option IpHttpResponse
  parseOk : String → Bool
  hostname : Option String

/-- Embedding of `get_local_hostname` (public_ip.rs lines 91 to 96). -/
def get_local_hostname (env : PublicIpEnv) : String :=
  match env.hostname with
  | some h => "local:" ++ h
  | none => "local:unknown"

/-- The service loop of `fetch_public_ip` (public_ip.rs lines 68 to 84):
walk the service list, skip transport errors, non-success statuses, body
read failures and non-IP bodies, and return "local:" plus the first trimmed
body that parses as an IP; fall back to the local hostname. -/
def tryServices (env : PublicIpEnv) : List String → String
  | [] => get_local_hostname env
  | service_url :: rest =>
      match env.response service_url with
      | some r =>
          if r.status_ok then
            match r.text with
            | some t =>
                let ip := strTrim t
                if env.parseOk ip then "local:" ++ ip else tryServices env rest
            | none => tryServices env rest
          else tryServices env rest
      | none => tryServices env rest

/-- Embedding of `fetch_public_ip` (public_ip.rs lines 62 to 85). -/
def fetch_public_ip (env : PublicIpEnv) : String :=
  tryServices env PUBLIC_IP_SERVICES

/-- Result of one `get_public_ip` call: the returned string, the cache state
after the call, and how many underlying HTTP fetch rounds ran. -/
structure GetPublicIpResult where
  result : String
  cache : CachedPublicIp
  fetches : Nat
deriving DecidableEq

/-- Embedding of `get_public_ip` (public_ip.rs lines 41 to 60): return the
cached value when both cache fields are set and the age is strictly below
300 seconds, otherwise fetch, overwrite the cache and stamp it with the
current time. -/
def get_public_ip (now : Nat) (env : PublicIpEnv) (st : CachedPublicIp) :
    GetPublicIpResult :=
  let hit :=
    match st.ip, st.last_fetched with
    | some ip, some last_fetched =>
        if now - last_fetched < PUBLIC_IP_CACHE_DURATION then some ip else none
    | _, _ => none
  match hit with
  | some ip => ⟨ip, st, 0⟩
  | none =>
      let ip := fetch_public_ip env
      ⟨ip, ⟨some ip, some now⟩, 1⟩

/-- The per-service outcome as the spec words it: the response must arrive,
be a success, yield a body, and the trimmed body must parse as an IP. -/
def specServiceResult (env : PublicIpEnv) (u : String) : Option String :=
  match env.response u with
  | some r =>
      if r.status_ok then
        match r.text with
        | some t =>
            if env.parseOk (strTrim t) then some ("local:" ++ strTrim t) else none
        | none => none
      else none
  | none => none

/-- The fetch as the spec words it: try the four services sequentially in
the fixed order and let the first success win, else fall back. -/
def specFirstFetch (env : PublicIpEnv) : String :=
  match PUBLIC_IP_SERVICES.filterMap (specServiceResult env) with
  | [] => get_local_hostname env
  | s :: _ => s

/-! ## Concrete example values used by witnesses and counterexamples -/

/-- Concrete environment exercising the success path with an all-clear probe. -/
def safeEnvExample : CheckEmailEnv where
  to_email := "user@example.com"
  syntaxRes := ⟨"user@example.com", true, some "user", "example.com",
    some "user@example.com", none⟩
  gsmp := fun s => s
  mxRes := .ok ⟨.ok [⟨5, "mx.example.com"⟩]⟩
  miscRes := ⟨false, false, none, none⟩
  smtpOf := fun _ => (.ok ⟨true, false, true, false, false⟩, "smtp trace")
  start_time := 0
  end_time := 1
  backend_name := "backend"

/-- Concrete environment whose syntax stage rejects the input. -/
def invalidSyntaxEnvExample : CheckEmailEnv where
  to_email := "not-an-email"
  syntaxRes := ⟨"not-an-email", false, none, "", none, none⟩
  gsmp := fun s => s
  mxRes := .error "unused"
  miscRes := ⟨false, false, none, none⟩
  smtpOf := fun _ => (.ok ⟨false, false, false, false, false⟩, "")
  start_time := 0
  end_time := 0
  backend_name := ""

/-- Concrete environment whose MX lookup errors. -/
def mxErrorEnvExample : CheckEmailEnv where
  to_email := "user@gmial.com"
  syntaxRes := ⟨"user@gmial.com", true, some "user", "gmial.com",
    some "user@gmial.com", none⟩
  gsmp := fun s => { s with suggestion := some "gmail.com" }
  mxRes := .error "NXDOMAIN"
  miscRes := ⟨false, false, none, none⟩
  smtpOf := fun _ => (.ok ⟨false, false, false, false, false⟩, "")
  start_time := 3
  end_time := 7
  backend_name := "b"

/-- Two MX records sharing the minimal preference, with first-encountered
order and exchange string order in disagreement. -/
def mxTieExample : List MxRecord :=
  [⟨10, "b.example.com"⟩, ⟨10, "a.example.com"⟩]

/-- Concrete public IP environment in which every service fails. -/
def ipEnvExample : PublicIpEnv where
  response := fun _ => none
  parseOk := fun _ => false
  hostname := some "host1"

/-- A cache state already holding a fetched value stamped at second 10. -/
def ipCacheExample : CachedPublicIp := ⟨some "local:9.9.9.9", some 10⟩

end Nexemail

namespace Nexemail

/-! ## Helper lemmas -/

theorem isPrefixOf_self_append (p r : List Char) : p.isPrefixOf (p ++ r) = true := by
  induction p with
  | nil => simp
  | cons a as ih =>
      simp only [List.cons_append, List.isPrefixOf_cons₂, ih, Bool.and_true, beq_self_eq_true]

theorem isPrefixOf_append_of {p q : List Char} (r : List Char)
    (h : p.isPrefixOf q = true) : p.isPrefixOf (q ++ r) = true := by
  induction p generalizing q with
  | nil => simp
  | cons a as ih =>
      cases q with
      | nil => simp at h
      | cons b bs =>
          simp only [List.isPrefixOf_cons₂, Bool.and_eq_true] at h
          simp only [List.cons_append, List.isPrefixOf_cons₂, Bool.and_eq_true]
          exact ⟨h.1, ih h.2⟩

theorem data_append (a b : String) : (a ++ b).data = a.data ++ b.data := by
  cases a; cases b; rfl

theorem strBegins_self_append (p r : String) : strBegins p (p ++ r) = true := by
  simp only [strBegins, data_append]
  exact isPrefixOf_self_append p.data r.data

theorem strBegins_extend {p q : String} (r : String)
    (h : strBegins p q = true) : strBegins p (q ++ r) = true := by
  simp only [strBegins, data_append]
  exact isPrefixOf_append_of r.data h

/-- Every branch of `format_smtp_error_reason` begins with its Unknown tag. -/
theorem format_smtp_error_reason_unknown (e : SmtpError) :
    strBegins "Unknown:" (format_smtp_error_reason e) = true := by
  cases e <;> exact strBegins_extend _ (by decide)

/-- Verdict fusion always produces a reason consistent with its verdict. -/
theorem fusion_reasonConsistent (misc : MiscDetails)
    (smtp : Except SmtpError SmtpDetails) :
    reasonConsistent (calculate_reachable_with_reason misc smtp).1
      (calculate_reachable_with_reason misc smtp).2 := by
  match smtp with
  | .error e =>
      exact format_smtp_error_reason_unknown e
  | .ok d =>
      obtain ⟨a, b, g1, h1⟩ := misc
      obtain ⟨c1, c2, c3, c4, c5⟩ := d
      cases a <;> cases b <;> cases c1 <;> cases c2 <;> cases c3 <;> cases c4 <;>
        cases c5 <;> rfl

/-- Round-robin outputs: starting from machine counter `c` with no wraparound
within the run, the j-th call reads index `(c + j) mod N`. -/
theorem runRotator_outputs (a : String) (as : List String) :
    ∀ (n c : Nat), c + n ≤ USIZE_MOD →
      (runRotator ⟨a :: as, c, .RoundRobin⟩ n).1
        = (List.range n).map (fun j => (a :: as).get? ((c + j) % (a :: as).length)) := by
  intro n
  induction n with
  | zero => intro c _; rfl
  | succ n ih =>
      intro c hc
      have hstep : (runRotator ⟨a :: as, c, .RoundRobin⟩ (n + 1)).1
          = (a :: as).get? (c % (a :: as).length) ::
            (runRotator ⟨a :: as, (c + 1) % USIZE_MOD, .RoundRobin⟩ n).1 := rfl
      rw [hstep]
      rcases Nat.lt_or_ge (c + 1) USIZE_MOD with h | h
      · rw [Nat.mod_eq_of_lt h, ih (c + 1) (by omega)]
        rw [List.range_succ_eq_map, List.map_cons, List.map_map]
        congr 1
        exact List.map_congr_left fun j _ => by
          have hj : c + 1 + j = c + (j + 1) := by omega
          rw [Function.comp, hj]
      · have hn : n = 0 := by omega
        subst hn
        rfl

/-- One full round-robin cycle of outputs is the input list cyclically
shifted by the starting counter, viewed through `some`. -/
theorem range_map_mod_eq_rotate (ids : List String) (hne : ids ≠ []) (c : Nat) :
    (List.range ids.length).map (fun j => ids.get? ((c + j) % ids.length))
      = (ids.rotate (c % ids.length)).map some := by
  have hlen : 0 < ids.length := List.length_pos.mpr hne
  apply List.ext_getElem?
  intro m
  by_cases hm : m < ids.length
  · have hrot : (ids.rotate (c % ids.length))[m]?
        = ids.get? ((m + c % ids.length) % ids.length) := by
      rw [← List.get?_eq_getElem?, List.get?_rotate hm]
    have hidx : (m + c % ids.length) % ids.length = (c + m) % ids.length := by
      rw [Nat.add_mod m (c % ids.length), Nat.mod_mod_of_dvd c dvd_rfl,
        ← Nat.add_mod, Nat.add_comm]
    have hcm : (c + m) % ids.length < ids.length := Nat.mod_lt _ hlen
    have hv : ids.get? ((c + m) % ids.length) = some (ids.get ⟨_, hcm⟩) :=
      List.get?_eq_get hcm
    rw [List.getElem?_map, List.getElem?_map, List.getElem?_range hm, hrot, hidx, hv]
    simp only [Option.map_some']
    rw [hv]
  · have h1 : ids.length ≤ m := Nat.le_of_not_lt hm
    rw [List.getElem?_eq_none (by simpa using h1),
      List.getElem?_eq_none (by simpa using h1)]

/-- Counting through the `some` constructor changes nothing. -/
theorem count_map_some (l : List String) (x : String) :
    (l.map some).count (some x) = l.count x := by
  have hbeq : ∀ a b : String, ((some a : Option String) == some b) = (a == b) :=
    fun _ _ => rfl
  induction l with
  | nil => rfl
  | cons a as ih =>
      simp only [List.map_cons, List.count_cons, ih, hbeq]

/-- Rotation preserves occurrence counts. -/
theorem count_rotate (l : List String) (x : String) (n : Nat) (h : n ≤ l.length) :
    (l.rotate n).count x = l.count x := by
  rw [List.rotate_eq_drop_append_take h, List.count_append]
  conv_rhs => rw [← List.take_append_drop n l, List.count_append]
  omega

/-- Occurrence count of one cycle block of round-robin outputs. -/
theorem block_count (ids : List String) (hne : ids ≠ []) (c : Nat) (x : String) :
    ((List.range ids.length).map
      (fun j => ids.get? ((c + j) % ids.length))).count (some x) = ids.count x := by
  have hlen : 0 < ids.length := List.length_pos.mpr hne
  rw [range_map_mod_eq_rotate ids hne c, count_map_some,
    count_rotate ids x _ (Nat.le_of_lt (Nat.mod_lt _ hlen))]

/-- Occurrence count over k full cycles of round-robin outputs. -/
theorem range_mul_count (ids : List String) (hne : ids ≠ []) (c k : Nat) (x : String) :
    ((List.range (k * ids.length)).map
      (fun j => ids.get? ((c + j) % ids.length))).count (some x)
      = k * ids.count x := by
  induction k with
  | zero => simp
  | succ k ih =>
      rw [Nat.succ_mul, List.range_add, List.map_append, List.count_append, ih,
        List.map_map]
      have hblock : (List.range ids.length).map
          ((fun j => ids.get? ((c + j) % ids.length)) ∘ (k * ids.length + ·))
          = (List.range ids.length).map (fun j => ids.get? ((c + j) % ids.length)) := by
        refine List.map_congr_left fun j _ => ?_
        have hj : c + (k * ids.length + j) = c + j + k * ids.length := by omega
        simp only [Function.comp]
        rw [hj, Nat.add_mul_mod_self_right]
      rw [hblock, block_count ids hne c x, Nat.succ_mul]

/-- The preference of the chosen record equals the minimal preference. -/
theorem min_by_key_pref_eq (l : List MxRecord) :
    (min_by_key_preference l).map (fun r => r.preference) = specMinPreference l := by
  induction l with
  | nil => rfl
  | cons x xs ih =>
      cases hmx : min_by_key_preference xs with
      | none =>
          have hxs : specMinPreference xs = none := by
            rw [← ih, hmx]; rfl
          simp only [min_by_key_preference, specMinPreference, hmx, hxs,
            Option.map_some']
      | some m =>
          have hxs : specMinPreference xs = some m.preference := by
            rw [← ih, hmx]; rfl
          simp only [min_by_key_preference, specMinPreference, hmx, hxs,
            Option.map_some']
          by_cases h : m.preference < x.preference
          · rw [if_pos h, Option.map_some', min_eq_right (Nat.le_of_lt h)]
          · rw [if_neg h, Option.map_some', min_eq_left (Nat.le_of_not_lt h)]

/-- Searching for the first record carrying the minimal preference recovers
the `min_by_key` choice. -/
theorem find_min_eq_min_by_key (l : List MxRecord) :
    ∀ m : Nat, specMinPreference l = some m →
      l.find? (fun r => r.preference == m) = min_by_key_preference l := by
  induction l with
  | nil => intro m h; simp [specMinPreference] at h
  | cons x xs ih =>
      intro m h
      simp only [specMinPreference] at h
      cases hxs : specMinPreference xs with
      | none =>
          rw [hxs] at h
          have hm : m = x.preference := by
            injection h with h1
            omega
          subst hm
          have hnone : min_by_key_preference xs = none := by
            have ha := min_by_key_pref_eq xs
            rw [hxs] at ha
            cases ho : min_by_key_preference xs with
            | none => rfl
            | some r => rw [ho] at ha; simp at ha
          simp only [min_by_key_preference, hnone, List.find?_cons, beq_self_eq_true]
      | some mt =>
          rw [hxs] at h
          have hm : m = min x.preference mt := by
            injection h with h1
            exact h1.symm
          obtain ⟨mr, hmr, hmrp⟩ : ∃ mr, min_by_key_preference xs = some mr ∧
              mr.preference = mt := by
            have ha := min_by_key_pref_eq xs
            rw [hxs] at ha
            cases ho : min_by_key_preference xs with
            | none => rw [ho] at ha; simp at ha
            | some r =>
                rw [ho] at ha
                simp only [Option.map_some', Option.some.injEq] at ha
                exact ⟨r, rfl, ha⟩
          simp only [min_by_key_preference, hmr]
          by_cases hlt : mt < x.preference
          · have hmmt : m = mt := by
              rw [hm, Nat.min_eq_right (Nat.le_of_lt hlt)]
            subst hmmt
            have hneq : (x.preference == m) = false := by
              simp only [beq_eq_false_iff_ne]
              omega
            have hcond : mr.preference < x.preference := by omega
            rw [List.find?_cons, hneq, if_pos hcond]
            show xs.find? (fun r => r.preference == m) = some mr
            rw [ih m hxs, hmr]
          · have hmx2 : m = x.preference := by
              rw [hm, Nat.min_eq_left (Nat.le_of_not_lt hlt)]
            subst hmx2
            have hcond : ¬mr.preference < x.preference := by omega
            rw [List.find?_cons, if_neg hcond]
            simp only [beq_self_eq_true]

/-- The service loop of `fetch_public_ip` returns the first sequential
success, as the spec words it. -/
theorem tryServices_eq_spec (env : PublicIpEnv) :
    ∀ l : List String, tryServices env l
      = (match l.filterMap (specServiceResult env) with
         | [] => get_local_hostname env
         | s :: _ => s) := by
  intro l
  induction l with
  | nil => rfl
  | cons u rest ih =>
      simp only [tryServices, List.filterMap_cons]
      cases hr : env.response u with
      | none => simpa [specServiceResult, hr] using ih
      | some r =>
          cases hst : r.status_ok with
          | false => simpa [specServiceResult, hr, hst] using ih
          | true =>
              cases ht : r.text with
              | none => simpa [specServiceResult, hr, hst, ht] using ih
              | some t =>
                  cases hp : env.parseOk (strTrim t) with
                  | false => simpa [specServiceResult, hr, hst, ht, hp] using ih
                  | true => simp [specServiceResult, hr, hst, ht, hp]

end Nexemail

namespace Nexemail

/-! ## Claim C1 -/

/-- C1: verdict fusion on an `Ok` probe result collects risky reasons in the
order disposable, role-account, catch-all, full-inbox and returns Risky with
the joined reason when any is set; only otherwise it collects invalid reasons
in the order cannot-connect, disabled, not-deliverable and returns Invalid;
with neither it returns Safe. In particular a disposable address together
with a non-deliverable result yields Risky, not Invalid. -/
theorem verdict_fusion_order_and_risky_priority
    (misc : MiscDetails) (d : SmtpDetails) (rb : Bool) (g : Option String)
    (hb : Option Bool) (cc fi dis ca : Bool) :
    calculate_reachable_with_reason misc (.ok d) = verdictFusionSpec misc d ∧
    (calculate_reachable_with_reason ⟨true, rb, g, hb⟩
        (.ok ⟨cc, fi, false, dis, ca⟩)).1 = .Risky := by
  constructor
  · obtain ⟨a, b, g1, h1⟩ := misc
    obtain ⟨c1, c2, c3, c4, c5⟩ := d
    cases a <;> cases b <;> cases c1 <;> cases c2 <;> cases c3 <;> cases c4 <;> cases c5 <;> rfl
  · cases rb <;> cases cc <;> cases fi <;> cases dis <;> cases ca <;> rfl

/-! ## Claim C7 -/

/-- C7: a SOCKS5 GeneralFailure reply produces a fusion reason containing the
substring "reply code 0x01", and each reply code 0x01 through 0x08 is
rendered by `format_socks5_reply_error` with its documented message beginning. -/
theorem socks5_reply_code_messages (misc : MiscDetails) :
    strContainsSub "reply code 0x01"
      (calculate_reachable_with_reason misc
        (.error (.Socks5 (.ReplyError .GeneralFailure)))).2 = true ∧
    strBegins "SOCKS5 General Failure (reply code 0x01)"
      (format_socks5_reply_error .GeneralFailure) = true ∧
    strBegins "SOCKS5 Connection Not Allowed (reply code 0x02)"
      (format_socks5_reply_error .ConnectionNotAllowed) = true ∧
    strBegins "SOCKS5 Network Unreachable (reply code 0x03)"
      (format_socks5_reply_error .NetworkUnreachable) = true ∧
    strBegins "SOCKS5 Host Unreachable (reply code 0x04)"
      (format_socks5_reply_error .HostUnreachable) = true ∧
    strBegins "SOCKS5 Connection Refused (reply code 0x05)"
      (format_socks5_reply_error .ConnectionRefused) = true ∧
    strBegins "SOCKS5 TTL Expired (reply code 0x06)"
      (format_socks5_reply_error .TtlExpired) = true ∧
    strBegins "SOCKS5 Command Not Supported (reply code 0x07)"
      (format_socks5_reply_error .CommandNotSupported) = true ∧
    strBegins "SOCKS5 Address Type Not Supported (reply code 0x08)"
      (format_socks5_reply_error .AddressTypeNotSupported) = true := by
  refine ⟨?_, by decide, by decide, by decide, by decide, by decide, by decide, by decide, by decide⟩
  rfl

/-! ## Claim C9 -/

/-- C9: `get_detailed_socks5_description` is total on the Socks5 variant, so
`format_smtp_error_reason` never reaches its fallback branch for a Socks5
error: the reason is always "Unknown: " followed by the detailed description. -/
theorem socks5_detailed_description_total (e : SocksError) :
    (SmtpError.Socks5 e).get_detailed_socks5_description
      = some (format_socks5_error_detailed e) ∧
    format_smtp_error_reason (SmtpError.Socks5 e)
      = "Unknown: " ++ format_socks5_error_detailed e := by
  exact ⟨rfl, rfl⟩

/-! ## Claim C10 -/

/-- C10: every `SmtpError` is either the AsyncSmtpError variant or has
`get_description` equal to none; hence only AsyncSmtpError values can be
classified as IpBlacklisted or NeedsRDNS. -/
theorem get_description_only_async_smtp (e : SmtpError) :
    e.get_description = none ∨ ∃ s, e = SmtpError.AsyncSmtpError s := by
  cases e with
  | AsyncSmtpError s => exact Or.inr ⟨s, rfl⟩
  | YahooError s => exact Or.inl rfl
  | GmailError s => exact Or.inl rfl
  | HeadlessError s => exact Or.inl rfl
  | Microsoft365Error s => exact Or.inl rfl
  | IOError s => exact Or.inl rfl
  | Timeout s => exact Or.inl rfl
  | Socks5 s => exact Or.inl rfl
  | AnyhowError s => exact Or.inl rfl

/-! ## Claim C2 (amended) -/

/-- C2 as amended: every output of `check_email` has a reason consistent
with its verdict: Invalid, Risky and Unknown reasons begin with their tag,
while a Safe reason is exactly "Email verification passed all checks"
(it does not begin with "Safe:"). -/
theorem check_email_reason_tags (env : CheckEmailEnv) :
    outputReasonOk (check_email env) := by
  obtain ⟨te, sr, gs, mxr, mr, sof, st0, et0, bn⟩ := env
  obtain ⟨si, sv, su, sd, sa, ss⟩ := sr
  cases sv with
  | false =>
      exact (by decide : strBegins "Invalid:" "Invalid: email syntax is invalid" = true)
  | true =>
      cases mxr with
      | error e => exact strBegins_extend _ (by decide)
      | ok mymx =>
          obtain ⟨lk⟩ := mymx
          cases lk with
          | error e2 =>
              exact (by decide :
                strBegins "Invalid:" "Invalid: no MX records found for domain" = true)
          | ok records =>
              cases sa with
              | none =>
                  cases hmin : min_by_key_preference records with
                  | none => simp only [check_email, hmin]; trivial
                  | some host => simp only [check_email, hmin]; trivial
              | some addr =>
                  cases hmin : min_by_key_preference records with
                  | none => simp only [check_email, hmin]; trivial
                  | some host =>
                      simp only [check_email, hmin]
                      exact fusion_reasonConsistent _ _

/-- C2 counterexample: a concrete run reaching the Safe verdict has the
reason "Email verification passed all checks", which does not begin with
"Safe:". -/
theorem check_email_safe_reason_counterexample :
    (check_email safeEnvExample).map CheckEmailOutput.is_reachable
      = some Reachable.Safe ∧
    (check_email safeEnvExample).map CheckEmailOutput.reason
      = some "Email verification passed all checks" ∧
    strBegins "Safe:" "Email verification passed all checks" = false :=
  ⟨rfl, rfl, by decide⟩

/-! ## Claim C3 (amended) -/

/-- C3 as amended: the probe target chosen by `check_email` from a non-empty
MX record list is the record with the minimal preference value, and when
several records share the minimal preference the one encountered first in
iteration order is chosen; the exchange host string order is not consulted. -/
theorem mx_selection_first_min (l : List MxRecord) :
    min_by_key_preference l = specSelectFirstMin l := by
  unfold specSelectFirstMin
  cases h : specMinPreference l with
  | none =>
      cases hk : min_by_key_preference l with
      | none => rfl
      | some r =>
          have ha := min_by_key_pref_eq l
          rw [hk, h] at ha
          simp at ha
  | some m => exact (find_min_eq_min_by_key l m h).symm

/-- C3 counterexample: with two records of equal preference, the code keeps
the first-encountered record, while breaking the tie by exchange string
order would keep the other one. -/
theorem mx_selection_string_order_counterexample :
    min_by_key_preference mxTieExample = some ⟨10, "b.example.com"⟩ ∧
    specSelectLexStringTieBreak mxTieExample = some ⟨10, "a.example.com"⟩ ∧
    min_by_key_preference mxTieExample ≠ specSelectLexStringTieBreak mxTieExample := by
  refine ⟨rfl, ?_, ?_⟩ <;> decide

/-! ## Claim C4 -/

/-- C4: on invalid syntax, `check_email` returns immediately with the
Invalid verdict and the fixed reason, and the mx, misc, smtp and debug
fields all keep their default values, whatever the downstream oracles
would have produced. -/
theorem invalid_syntax_early_return (env : CheckEmailEnv)
    (h : env.syntaxRes.is_syntax_valid = false) :
    check_email env = some { defaultOutput with
      input := env.to_email
      is_reachable := .Invalid
      reason := "Invalid: email syntax is invalid"
      syntaxDetails := env.syntaxRes } := by
  simp only [check_email]
  rw [h]
  try rfl

/-- Witness for C4 at a concrete environment. -/
theorem invalid_syntax_early_return_witness :
    invalidSyntaxEnvExample.syntaxRes.is_syntax_valid = false ∧
    check_email invalidSyntaxEnvExample = some { defaultOutput with
      input := invalidSyntaxEnvExample.to_email
      is_reachable := .Invalid
      reason := "Invalid: email syntax is invalid"
      syntaxDetails := invalidSyntaxEnvExample.syntaxRes } :=
  ⟨rfl, invalid_syntax_early_return invalidSyntaxEnvExample rfl⟩

/-! ## Claim C5 -/

/-- C5: on a failed MX lookup (with valid syntax), `check_email` returns the
Unknown verdict with a reason beginning "Unknown: MX lookup failed - ", and
the smtp, misc and debug fields keep their default values. -/
theorem mx_error_unknown_early_return (env : CheckEmailEnv) (e : String)
    (hv : env.syntaxRes.is_syntax_valid = true)
    (hmx : env.mxRes = .error e) :
    check_email env = some { defaultOutput with
      input := env.to_email
      is_reachable := .Unknown
      reason := "Unknown: MX lookup failed - " ++ e
      mx := .error e
      syntaxDetails := env.gsmp env.syntaxRes } ∧
    strBegins "Unknown: MX lookup failed - "
      ("Unknown: MX lookup failed - " ++ e) = true := by
  constructor
  · simp only [check_email]
    rw [hv, hmx]
    try rfl
  · exact strBegins_self_append _ _

/-- Witness for C5 at a concrete environment. -/
theorem mx_error_unknown_early_return_witness :
    mxErrorEnvExample.syntaxRes.is_syntax_valid = true ∧
    mxErrorEnvExample.mxRes = .error "NXDOMAIN" ∧
    (check_email mxErrorEnvExample = some { defaultOutput with
      input := mxErrorEnvExample.to_email
      is_reachable := .Unknown
      reason := "Unknown: MX lookup failed - " ++ "NXDOMAIN"
      mx := .error "NXDOMAIN"
      syntaxDetails := mxErrorEnvExample.gsmp mxErrorEnvExample.syntaxRes } ∧
    strBegins "Unknown: MX lookup failed - "
      ("Unknown: MX lookup failed - " ++ "NXDOMAIN") = true) :=
  ⟨rfl, rfl, mx_error_unknown_early_return mxErrorEnvExample "NXDOMAIN" rfl rfl⟩

/-! ## Claim C6 -/

/-- C6: for a RoundRobin rotator over a non-empty id list with counter `c`
(no wraparound of the 64-bit counter within the run), the i-th sequential
call returns the element at index `(c + i) mod N`; one full cycle of `N`
calls returns a cyclic shift of the input sequence, `k` full cycles return
every proxy id exactly `k` times its multiplicity, and on an empty sequence
`get_next_proxy_id` returns none. -/
theorem round_robin_rotation (ids : List String) (c n k i c2 r : Nat) (x : String)
    (hne : ids ≠ [])
    (hn : c + n ≤ USIZE_MOD)
    (hN : c + ids.length ≤ USIZE_MOD)
    (hk : c + k * ids.length ≤ USIZE_MOD)
    (hi : i < n) :
    (runRotator ⟨ids, c, .RoundRobin⟩ n).1.get? i
        = some (ids.get? ((c + i) % ids.length)) ∧
    (runRotator ⟨ids, c, .RoundRobin⟩ ids.length).1
        = (ids.rotate (c % ids.length)).map some ∧
    (runRotator ⟨ids, c, .RoundRobin⟩ (k * ids.length)).1.count (some x)
        = k * ids.count x ∧
    get_next_proxy_id ⟨[], c2, .RoundRobin⟩ r = (none, ⟨[], c2, .RoundRobin⟩) := by
  obtain ⟨a, as, rfl⟩ : ∃ b bs, ids = b :: bs := by
    cases ids with
    | nil => exact absurd rfl hne
    | cons b bs => exact ⟨b, bs, rfl⟩
  refine ⟨?_, ?_, ?_, rfl⟩
  · rw [runRotator_outputs a as n c hn, List.get?_eq_getElem?, List.getElem?_map,
      List.getElem?_range hi]
    rfl
  · rw [runRotator_outputs a as (a :: as).length c hN]
    exact range_map_mod_eq_rotate (a :: as) hne c
  · rw [runRotator_outputs a as (k * (a :: as).length) c hk]
    exact range_mul_count (a :: as) hne c k x

/-- Witness for C6 at a concrete rotator. -/
theorem round_robin_rotation_witness :
    (["a", "b"] ≠ ([] : List String)) ∧
    1 + 3 ≤ USIZE_MOD ∧
    1 + (["a", "b"] : List String).length ≤ USIZE_MOD ∧
    1 + 2 * (["a", "b"] : List String).length ≤ USIZE_MOD ∧
    1 < 3 ∧
    ((runRotator ⟨["a", "b"], 1, .RoundRobin⟩ 3).1.get? 1
        = some ((["a", "b"] : List String).get? ((1 + 1) % (["a", "b"] : List String).length)) ∧
    (runRotator ⟨["a", "b"], 1, .RoundRobin⟩ (["a", "b"] : List String).length).1
        = ((["a", "b"] : List String).rotate (1 % (["a", "b"] : List String).length)).map some ∧
    (runRotator ⟨["a", "b"], 1, .RoundRobin⟩ (2 * (["a", "b"] : List String).length)).1.count (some "b")
        = 2 * (["a", "b"] : List String).count "b" ∧
    get_next_proxy_id ⟨[], 7, .RoundRobin⟩ 5 = (none, ⟨[], 7, .RoundRobin⟩)) :=
  ⟨by decide, by decide, by decide, by decide, by decide,
    round_robin_rotation ["a", "b"] 1 3 2 1 7 5 "b"
      (by decide) (by decide) (by decide) (by decide) (by decide)⟩

/-! ## Claim C8 -/

/-- C8: a cached public IP younger than 300 seconds is returned unchanged
with no fetch; two calls within 300 seconds of a first successful fetch
return identical strings with exactly one underlying fetch between them;
and a cache miss walks the four services in their fixed order, the first
response parsing as an IP winning. -/
theorem public_ip_cache_behavior (env env1 env2 : PublicIpEnv)
    (st : CachedPublicIp) (ip : String) (t now t0 t1 : Nat)
    (hip : st.ip = some ip)
    (hlf : st.last_fetched = some t)
    (hage : now - t < PUBLIC_IP_CACHE_DURATION)
    (hwin : t1 - t0 < PUBLIC_IP_CACHE_DURATION) :
    get_public_ip now env st = ⟨ip, st, 0⟩ ∧
    (get_public_ip t1 env2 (get_public_ip t0 env1 ⟨none, none⟩).cache).result
        = (get_public_ip t0 env1 ⟨none, none⟩).result ∧
    (get_public_ip t0 env1 ⟨none, none⟩).fetches
        + (get_public_ip t1 env2 (get_public_ip t0 env1 ⟨none, none⟩).cache).fetches
        = 1 ∧
    fetch_public_ip env = specFirstFetch env := by
  refine ⟨?_, ?_, ?_, ?_⟩
  · simp only [get_public_ip, hip, hlf, if_pos hage]
  · simp only [get_public_ip, if_pos hwin]
  · simp only [get_public_ip, if_pos hwin]
  · exact tryServices_eq_spec env PUBLIC_IP_SERVICES

/-- Witness for C8 at concrete cache states and environments. -/
theorem public_ip_cache_behavior_witness :
    ipCacheExample.ip = some "local:9.9.9.9" ∧
    ipCacheExample.last_fetched = some 10 ∧
    100 - 10 < PUBLIC_IP_CACHE_DURATION ∧
    200 - 50 < PUBLIC_IP_CACHE_DURATION ∧
    (get_public_ip 100 ipEnvExample ipCacheExample
        = ⟨"local:9.9.9.9", ipCacheExample, 0⟩ ∧
    (get_public_ip 200 ipEnvExample (get_public_ip 50 ipEnvExample ⟨none, none⟩).cache).result
        = (get_public_ip 50 ipEnvExample ⟨none, none⟩).result ∧
    (get_public_ip 50 ipEnvExample ⟨none, none⟩).fetches
        + (get_public_ip 200 ipEnvExample (get_public_ip 50 ipEnvExample ⟨none, none⟩).cache).fetches
        = 1 ∧
    fetch_public_ip ipEnvExample = specFirstFetch ipEnvExample) :=
  ⟨rfl, rfl, by decide, by decide,
    public_ip_cache_behavior ipEnvExample ipEnvExample ipEnvExample
      ipCacheExample "local:9.9.9.9" 10 100 50 200 rfl rfl (by decide) (by decide)⟩

end Nexemail
